import Mathlib

/-!
Verification of the compile pipeline of `src/app.py` (a Flask service that
compiles LaTeX source to PDF via a `pdflatex` subprocess).

The embedding models the `/compile` handler `compile_tex` and the `/health`
handler `health`.  External effects (the subprocess run, the state of the
workspace files afterwards, the outcome of writing the source file) are
supplied by a `World` value; the handler is a pure function from the request
body and the world to an HTTP-level response together with a trace of
filesystem/process events.
-/

namespace PdfToLatexApi

/-- Result of one completed child process, mirroring the fields of
`subprocess.CompletedProcess` that `compile_tex` consults. -/
structure ProcResult where
  returncode : Int
  stdout : String
  stderr : String
deriving DecidableEq, Repr

/-- How the `subprocess.run` call at `app.py:143` behaves: it either completes
(with an exit code and captured streams), raises `subprocess.TimeoutExpired`,
or raises some other exception (e.g. `FileNotFoundError` when the `pdflatex`
binary is absent). -/
inductive RunBehavior where
  | completes (proc : ProcResult)
  | timesOut
  | raises (msg : String)
deriving DecidableEq, Repr

/-- External state one `/compile` request interacts with: whether the write of
`document.tex` (`app.py:130-131`, outside the `try` block) succeeds or raises
an OS error, how the subprocess behaves, and the contents of `document.log`
and `document.pdf` in the workspace after the process ends (`none` = the file
does not exist). -/
structure World where
  writeError : Option String
  run : RunBehavior
  log : Option String
  pdf : Option (List Nat)
deriving DecidableEq, Repr

/-- Observable filesystem/process side effects of one request, in order. -/
inductive Event where
  | workspaceCreated
  | sourceWritten (filename : String) (content : String)
  | engineInvoked (argv : List String)
  | workspaceDestroyed
deriving DecidableEq, Repr

/-- HTTP-level outcome of `compile_tex`, one constructor per `return` site.
`securityRejected` is the 403 outcome that the route docstring
(`app.py:110-111`) declares; no code path produces it. -/
inductive Response where
  | badRequestNoContent
  | securityRejected (rule : String)
  | compileFailed (logs : String)
  | success (pdfBytes : List Nat)
  | timedOut (limit : Int)
  | internalError (msg : String)
deriving DecidableEq, Repr

/-- Default compilation timeout: `int(os.getenv('COMPILATION_TIMEOUT', 30))`
at `app.py:22`; the environment variable (already parsed) overrides 30. -/
def COMPILATION_TIMEOUT (env : Option Int) : Int :=
  env.getD 30

/-- Fixed input file name (`app.py:124`). -/
def tex_filename : String := "document.tex"

/-- Fixed output file name (`app.py:125`). -/
def pdf_filename : String := "document.pdf"

/-- Fixed log file name (`app.py:126`). -/
def log_filename : String := "document.log"

/-- The constant argument vector built at `app.py:135-140`. -/
def command : List String :=
  ["pdflatex", "-interaction=nonstopmode", "-output-directory=.", tex_filename]

/-- Semantics of `with tempfile.TemporaryDirectory() as temp_dir:`
(`app.py:123`) once the directory has been allocated: the directory is created
before the body runs and recursively removed when the body exits, whether the
body returns a response or raises.  The allocation call itself can also raise
(disk full, permission denied); that fault path is modelled by the
`acquireError` parameter of `compile_tex_full` below. -/
def withTempDir (body : Except String Response × List Event) :
    Except String Response × List Event :=
  (body.fst, Event.workspaceCreated :: body.snd ++ [Event.workspaceDestroyed])

/-- Classification inside the `try` block of `compile_tex` (`app.py:142-177`),
applied once the subprocess call has been made.  Exit code nonzero → 400 with
the log file content when the log exists, empty string otherwise
(`app.py:151-161`).  Exit code zero → `send_file(document.pdf)`
(`app.py:163-170`); when the PDF is absent `send_file` raises and the generic
handler returns 500 (`app.py:175-177`).  `TimeoutExpired` → 408 carrying the
configured timeout (`app.py:172-174`); any other exception → 500
(`app.py:175-177`). -/
def classify (timeoutCfg : Int) (w : World) : Response :=
  match w.run with
  | RunBehavior.timesOut => Response.timedOut timeoutCfg
  | RunBehavior.raises msg =>
      Response.internalError ("An unexpected error occurred: " ++ msg)
  | RunBehavior.completes proc =>
      if proc.returncode ≠ 0 then
        Response.compileFailed (w.log.getD "")
      else
        match w.pdf with
        | some bytes => Response.success bytes
        | none =>
            Response.internalError
              ("An unexpected error occurred: " ++ pdf_filename ++ " not found")

/-- The `/compile` handler (`app.py:84-177`) given that workspace allocation
succeeds.  Empty body → immediate 400 (`app.py:118-120`, `if not tex_content`
is true exactly on the empty string).  Otherwise: create the temporary
workspace, write `document.tex` (a failure of this write, being outside the
`try` block, propagates as an unhandled exception — modelled as
`Except.error` — while the workspace is still torn down by the context
manager), then run the subprocess and classify.  `compile_tex_full` below
extends this with the fault path of the allocation call itself. -/
def compile_tex (timeoutCfg : Int) (tex_content : String) (w : World) :
    Except String Response × List Event :=
  if tex_content = "" then
    (Except.ok Response.badRequestNoContent, [])
  else
    withTempDir
      (match w.writeError with
       | some err => (Except.error err, [])
       | none =>
           (Except.ok (classify timeoutCfg w),
            [Event.sourceWritten tex_filename tex_content,
             Event.engineInvoked command]))

/-- The `/compile` handler including the fallibility of workspace
acquisition: `tempfile.TemporaryDirectory()` at `app.py:123` can itself raise
(disk full, permission denied), nothing catches it, and it propagates as an
unhandled exception before any workspace exists, any file is written or the
engine runs.  The empty-body check (`app.py:118`) precedes the allocation
call; with `acquireError = none` this is exactly `compile_tex`. -/
def compile_tex_full (timeoutCfg : Int) (tex_content : String)
    (acquireError : Option String) (w : World) :
    Except String Response × List Event :=
  if tex_content = "" then
    (Except.ok Response.badRequestNoContent, [])
  else
    match acquireError with
    | some err => (Except.error err, [])
    | none => compile_tex timeoutCfg tex_content w

/-- JSON body of the `/health` endpoint (`app.py:196-199`). -/
structure HealthStatus where
  status : String
  pdflatex_present : Bool
deriving DecidableEq, Repr

/-- The `/health` handler (`app.py:179-201`): reports whether
`shutil.which("pdflatex")` resolves the engine binary on the search path
(modelled as the resolved path, `none` when absent).  It returns status 200
and performs no compilation: its event trace is empty. -/
def health (pdflatexPath : Option String) :
    (HealthStatus × Nat) × List Event :=
  (({ status := "ok", pdflatex_present := pdflatexPath.isSome }, 200), [])

/-! Helper lemmas and concrete worlds used across the claim theorems. -/

/-- Unfolds `compile_tex` on a non-empty body into its two shapes: the
source-write failure path (unhandled exception, workspace still torn down)
and the normal path (write, subprocess invocation, classification). -/
theorem compile_tex_of_ne_empty (cfg : Int) (tex : String) (w : World)
    (h : ¬ tex = "") :
    compile_tex cfg tex w =
      match w.writeError with
      | some err =>
          (Except.error err,
           [Event.workspaceCreated, Event.workspaceDestroyed])
      | none =>
          (Except.ok (classify cfg w),
           [Event.workspaceCreated, Event.sourceWritten tex_filename tex,
            Event.engineInvoked command, Event.workspaceDestroyed]) := by
  cases hw : w.writeError <;> simp [compile_tex, withTempDir, h, hw]

/-- The classifier never produces the empty-body validation response. -/
theorem classify_ne_badRequest (cfg : Int) (w : World) :
    classify cfg w ≠ Response.badRequestNoContent := by
  unfold classify
  cases w.run with
  | timesOut => simp
  | raises msg => simp
  | completes proc =>
      by_cases h : proc.returncode = 0
      · simp only [h, ne_eq, not_true_eq_false, if_false]
        cases w.pdf <;> simp
      · simp [h]

/-- World in which the write succeeds, the engine exits 0 and leaves a PDF. -/
def benignWorld : World :=
  { writeError := none
  , run := RunBehavior.completes { returncode := 0, stdout := "", stderr := "" }
  , log := none
  , pdf := some [37, 80, 68, 70] }

/-- World in which the engine exits nonzero without producing a log file. -/
def failNoLogWorld : World :=
  { writeError := none
  , run := RunBehavior.completes { returncode := 1, stdout := "!", stderr := "" }
  , log := none
  , pdf := none }

/-- World in which the engine exits 0 but no PDF exists in the workspace. -/
def zeroExitNoPdfWorld : World :=
  { writeError := none
  , run := RunBehavior.completes { returncode := 0, stdout := "", stderr := "" }
  , log := none
  , pdf := none }

/-- World in which the subprocess call raises `TimeoutExpired`. -/
def timeoutWorld : World :=
  { writeError := none
  , run := RunBehavior.timesOut
  , log := none
  , pdf := none }

/-- World in which writing `document.tex` raises an OS error. -/
def writeFailWorld : World :=
  { writeError := some "[Errno 28] No space left on device"
  , run := RunBehavior.completes { returncode := 0, stdout := "", stderr := "" }
  , log := none
  , pdf := none }

/-- The shell-escape token; the canonical denylist entry for the
capability class "shell-escape invocation". -/
def write18_token : String := "\\write18"

/-- A source text containing the shell-escape token as a literal substring. -/
def dangerousTex : String :=
  "\\documentclass{article}\\begin{document}" ++ write18_token ++
    "{ls}\\end{document}"

/-! Claim theorems. -/

/-- C1 (code_bug): on a source text containing the denylist token
`\write18` as a literal substring, `compile_tex` creates a workspace, writes
the source, invokes the external engine and returns the engine's result —
it never returns the security rejection that the route docstring
(`app.py:110-111`, "403: Security check failed") declares, because no
scanner exists anywhere in `app.py`. -/
theorem c1_denylist_token_reaches_engine :
    compile_tex 30 dangerousTex benignWorld =
      (Except.ok (Response.success [37, 80, 68, 70]),
       [Event.workspaceCreated,
        Event.sourceWritten tex_filename dangerousTex,
        Event.engineInvoked command,
        Event.workspaceDestroyed]) ∧
    ∀ r, (compile_tex 30 dangerousTex benignWorld).fst ≠
           Except.ok (Response.securityRejected r) := by
  have h0 : (compile_tex 30 dangerousTex benignWorld).fst =
      Except.ok (Response.success [37, 80, 68, 70]) := rfl
  refine ⟨rfl, fun r h => ?_⟩
  rw [h0] at h
  exact Response.noConfusion (Except.ok.inj h)

/-- C2: whenever a workspace is created during a `compile_tex` call, it is
also destroyed before the call returns, and destruction is the last
observable event — on the success, compile-failure, timeout, in-`try`
exception and source-write exception paths alike (the `with
tempfile.TemporaryDirectory()` context manager guarantees this). -/
theorem c2_workspace_always_destroyed (cfg : Int) (tex : String) (w : World)
    (h : Event.workspaceCreated ∈ (compile_tex cfg tex w).snd) :
    Event.workspaceDestroyed ∈ (compile_tex cfg tex w).snd ∧
    ∃ pre, (compile_tex cfg tex w).snd = pre ++ [Event.workspaceDestroyed] := by
  by_cases he : tex = ""
  · subst he
    simp [compile_tex] at h
  · rw [compile_tex_of_ne_empty cfg tex w he]
    cases w.writeError with
    | none =>
        exact ⟨by simp,
          ⟨[Event.workspaceCreated, Event.sourceWritten tex_filename tex,
            Event.engineInvoked command], rfl⟩⟩
    | some err =>
        exact ⟨by simp, ⟨[Event.workspaceCreated], rfl⟩⟩

/-- C2 witness: at a concrete non-empty request the workspace is created,
and indeed destroyed as the final event. -/
theorem c2_witness :
    Event.workspaceDestroyed ∈ (compile_tex 30 "x" benignWorld).snd ∧
    ∃ pre, (compile_tex 30 "x" benignWorld).snd =
             pre ++ [Event.workspaceDestroyed] :=
  c2_workspace_always_destroyed 30 "x" benignWorld (by decide)

/-- C3: when the process completes (no timeout) with a nonzero exit code,
the response is the 400 `compileFailed` outcome whose payload is the log
file's full content when the file exists and the empty string when it does
not; a missing log never changes the outcome kind. -/
theorem c3_nonzero_exit_reads_log (cfg : Int) (tex : String) (w : World)
    (proc : ProcResult) (htex : tex ≠ "") (hw : w.writeError = none)
    (hrun : w.run = RunBehavior.completes proc)
    (hrc : proc.returncode ≠ 0) :
    (∀ s, w.log = some s →
       (compile_tex cfg tex w).fst =
         Except.ok (Response.compileFailed s)) ∧
    (w.log = none →
       (compile_tex cfg tex w).fst =
         Except.ok (Response.compileFailed "")) := by
  rw [compile_tex_of_ne_empty cfg tex w htex, hw]
  constructor
  · intro s hs
    simp [classify, hrun, hrc, hs]
  · intro hs
    simp [classify, hrun, hrc, hs]

/-- C3 witness: a failing run with no log file yields `compileFailed ""`. -/
theorem c3_witness :
    (∀ s, failNoLogWorld.log = some s →
       (compile_tex 30 "\\invalidcommand" failNoLogWorld).fst =
         Except.ok (Response.compileFailed s)) ∧
    (failNoLogWorld.log = none →
       (compile_tex 30 "\\invalidcommand" failNoLogWorld).fst =
         Except.ok (Response.compileFailed "")) :=
  c3_nonzero_exit_reads_log 30 "\\invalidcommand" failNoLogWorld
    { returncode := 1, stdout := "!", stderr := "" }
    (by decide) rfl rfl (by decide)

/-- C4: when the process exits 0, the response is `success` with the
artifact's full bytes when `document.pdf` exists; when it is absent,
`send_file` raises, the generic handler returns the 500 `internalError`
response, and `success` is never returned. -/
theorem c4_zero_exit_artifact (cfg : Int) (tex : String) (w : World)
    (proc : ProcResult) (htex : tex ≠ "") (hw : w.writeError = none)
    (hrun : w.run = RunBehavior.completes proc)
    (hrc : proc.returncode = 0) :
    (∀ b, w.pdf = some b →
       (compile_tex cfg tex w).fst = Except.ok (Response.success b)) ∧
    (w.pdf = none →
       (compile_tex cfg tex w).fst =
         Except.ok (Response.internalError
           ("An unexpected error occurred: " ++ pdf_filename ++ " not found")) ∧
       ∀ b, (compile_tex cfg tex w).fst ≠
              Except.ok (Response.success b)) := by
  rw [compile_tex_of_ne_empty cfg tex w htex, hw]
  constructor
  · intro b hb
    simp [classify, hrun, hrc, hb]
  · intro hb
    refine ⟨by simp [classify, hrun, hrc, hb], fun b h => ?_⟩
    simp [classify, hrun, hrc, hb] at h

/-- C4 witness: zero exit code with the artifact missing yields the 500
internal error, never success. -/
theorem c4_witness :
    (∀ b, zeroExitNoPdfWorld.pdf = some b →
       (compile_tex 30 "x" zeroExitNoPdfWorld).fst =
         Except.ok (Response.success b)) ∧
    (zeroExitNoPdfWorld.pdf = none →
       (compile_tex 30 "x" zeroExitNoPdfWorld).fst =
         Except.ok (Response.internalError
           ("An unexpected error occurred: " ++ pdf_filename ++ " not found")) ∧
       ∀ b, (compile_tex 30 "x" zeroExitNoPdfWorld).fst ≠
              Except.ok (Response.success b)) :=
  c4_zero_exit_artifact 30 "x" zeroExitNoPdfWorld
    { returncode := 0, stdout := "", stderr := "" }
    (by decide) rfl rfl rfl

/-- C5: on the empty request body, `compile_tex` returns the validation
failure immediately and its event trace is empty — no workspace is created,
no source is written, and the engine is not invoked. -/
theorem c5_empty_body_short_circuits (cfg : Int) (w : World) :
    compile_tex cfg "" w = (Except.ok Response.badRequestNoContent, []) := by
  rfl

/-- C6: the timeout defaults to 30 when the environment variable is unset,
and when the subprocess call raises `TimeoutExpired` the response is the 408
outcome carrying exactly the configured timeout value, for every request
body — the request content never influences the deadline. -/
theorem c6_timeout_carries_config :
    COMPILATION_TIMEOUT none = 30 ∧
    ∀ (cfg : Int) (tex : String) (w : World),
      tex ≠ "" → w.writeError = none → w.run = RunBehavior.timesOut →
        (compile_tex cfg tex w).fst = Except.ok (Response.timedOut cfg) := by
  refine ⟨rfl, fun cfg tex w htex hw hrun => ?_⟩
  rw [compile_tex_of_ne_empty cfg tex w htex, hw]
  simp [classify, hrun]

/-- C6 witness: a timed-out run at the default configuration returns the
408 outcome carrying 30. -/
theorem c6_witness :
    (compile_tex (COMPILATION_TIMEOUT none) " " timeoutWorld).fst =
      Except.ok (Response.timedOut (COMPILATION_TIMEOUT none)) :=
  c6_timeout_carries_config.2 (COMPILATION_TIMEOUT none) " " timeoutWorld
    (by decide) rfl rfl

/-- C7 counterexample: an OS error while writing `document.tex`
(`app.py:130-131`, outside the `try` block) propagates as an unhandled
fault even though workspace teardown itself succeeds (the trace ends with
`workspaceDestroyed`), so a path exists that yields no outcome yet whose
propagating fault is not a fault in teardown. -/
theorem c7_counterexample :
    (compile_tex 30 "x" writeFailWorld).fst =
      Except.error "[Errno 28] No space left on device" ∧
    (compile_tex 30 "x" writeFailWorld).snd =
      [Event.workspaceCreated, Event.workspaceDestroyed] := by
  constructor <;> rfl

/-- Outcome case analysis for the post-acquisition pipeline: every path
through `compile_tex` either yields exactly one response from the fixed
outcome set, or propagates an unhandled fault, the latter exactly when the
source-file write raises. -/
theorem compile_tex_outcome_cases (cfg : Int) (tex : String) (w : World) :
    ((compile_tex cfg tex w).fst = Except.ok Response.badRequestNoContent ∨
     (∃ l, (compile_tex cfg tex w).fst =
             Except.ok (Response.compileFailed l)) ∨
     (∃ b, (compile_tex cfg tex w).fst = Except.ok (Response.success b)) ∨
     (∃ t, (compile_tex cfg tex w).fst = Except.ok (Response.timedOut t)) ∨
     (∃ m, (compile_tex cfg tex w).fst =
             Except.ok (Response.internalError m))) ∨
    (∃ e, (compile_tex cfg tex w).fst = Except.error e ∧
          w.writeError = some e ∧ tex ≠ "") := by
  by_cases he : tex = ""
  · subst he
    exact Or.inl (Or.inl rfl)
  · rw [compile_tex_of_ne_empty cfg tex w he]
    cases hw : w.writeError with
    | some err => exact Or.inr ⟨err, rfl, rfl, he⟩
    | none =>
        left
        unfold classify
        cases hrun : w.run with
        | timesOut => exact Or.inr (Or.inr (Or.inr (Or.inl ⟨cfg, rfl⟩)))
        | raises msg =>
            exact Or.inr (Or.inr (Or.inr (Or.inr ⟨_, rfl⟩)))
        | completes proc =>
            by_cases hrc : proc.returncode = 0
            · cases hpdf : w.pdf with
              | some bytes =>
                  refine Or.inr (Or.inr (Or.inl ⟨bytes, ?_⟩))
                  simp [hrc, hpdf]
              | none =>
                  refine Or.inr (Or.inr (Or.inr (Or.inr
                    ⟨"An unexpected error occurred: " ++ pdf_filename ++
                       " not found", ?_⟩)))
                  simp [hrc, hpdf]
            · refine Or.inr (Or.inl ⟨w.log.getD "", ?_⟩)
              simp [hrc]

/-- Agreement of the two models: when workspace acquisition succeeds,
`compile_tex_full` is `compile_tex`. -/
theorem compile_tex_full_none (cfg : Int) (tex : String) (w : World) :
    compile_tex_full cfg tex none w = compile_tex cfg tex w := by
  by_cases h : tex = "" <;> simp [compile_tex_full, compile_tex, h]

/-- C7 (amended): every path through the handler either yields exactly one
response from the fixed outcome set (empty-body validation failure,
`compileFailed`, `success`, `timedOut`, `internalError` — never
`securityRejected`), or propagates an unhandled fault, and the latter
happens only when workspace acquisition (`tempfile.TemporaryDirectory()`
itself raising) or the source-file write raises — both sit outside the
`try` block — or, beyond this model, when teardown itself faults. -/
theorem c7_amended_outcome_totality (cfg : Int) (tex : String)
    (acq : Option String) (w : World) :
    ((compile_tex_full cfg tex acq w).fst =
        Except.ok Response.badRequestNoContent ∨
     (∃ l, (compile_tex_full cfg tex acq w).fst =
             Except.ok (Response.compileFailed l)) ∨
     (∃ b, (compile_tex_full cfg tex acq w).fst =
             Except.ok (Response.success b)) ∨
     (∃ t, (compile_tex_full cfg tex acq w).fst =
             Except.ok (Response.timedOut t)) ∨
     (∃ m, (compile_tex_full cfg tex acq w).fst =
             Except.ok (Response.internalError m))) ∨
    (∃ e, (compile_tex_full cfg tex acq w).fst = Except.error e ∧
          (acq = some e ∨ (acq = none ∧ w.writeError = some e)) ∧
          tex ≠ "") := by
  by_cases he : tex = ""
  · subst he
    exact Or.inl (Or.inl rfl)
  · cases acq with
    | some err =>
        refine Or.inr ⟨err, ?_, Or.inl rfl, he⟩
        simp [compile_tex_full, he]
    | none =>
        rw [compile_tex_full_none]
        rcases compile_tex_outcome_cases cfg tex w with h | ⟨e, h1, h2, h3⟩
        · exact Or.inl h
        · exact Or.inr ⟨e, h1, Or.inr ⟨rfl, h2⟩, h3⟩

/-- C8: the health endpoint reports `pdflatex_present = true` exactly when
the engine binary resolves on the search path, answers 200 with status
"ok", and performs no compilation or workspace activity (empty trace). -/
theorem c8_health_reports_engine_presence (p : Option String) :
    ((health p).fst.fst.pdflatex_present = true ↔ p ≠ none) ∧
    (health p).fst.fst.status = "ok" ∧
    (health p).fst.snd = 200 ∧
    (health p).snd = [] := by
  cases p <;> simp [health]

/-- C9: for every non-empty request whose source write succeeds, the engine
is invoked with exactly the constant argument vector
`["pdflatex", "-interaction=nonstopmode", "-output-directory=.",
"document.tex"]`; no other argument vector is ever passed, so the request
content influences only the written file, never the command line. -/
theorem c9_argv_constant (cfg : Int) (tex : String) (w : World)
    (htex : tex ≠ "") (hw : w.writeError = none) :
    Event.engineInvoked command ∈ (compile_tex cfg tex w).snd ∧
    (∀ argv, Event.engineInvoked argv ∈ (compile_tex cfg tex w).snd →
       argv = command) ∧
    command = ["pdflatex", "-interaction=nonstopmode", "-output-directory=.",
               "document.tex"] := by
  rw [compile_tex_of_ne_empty cfg tex w htex, hw]
  refine ⟨by simp, fun argv ha => ?_, rfl⟩
  simp at ha
  exact ha

/-- C9 witness: a concrete request is passed to the engine with the constant
argument vector. -/
theorem c9_witness :
    Event.engineInvoked command ∈
      (compile_tex 30 "\\documentclass{article}" benignWorld).snd ∧
    (∀ argv, Event.engineInvoked argv ∈
       (compile_tex 30 "\\documentclass{article}" benignWorld).snd →
       argv = command) ∧
    command = ["pdflatex", "-interaction=nonstopmode", "-output-directory=.",
               "document.tex"] :=
  c9_argv_constant 30 "\\documentclass{article}" benignWorld (by decide) rfl

/-- C10: the empty-body rejection fires only on the exactly-empty request:
every non-empty body — whitespace-only included — passes validation (the
response is never the validation failure), a workspace is created, and when
the source write succeeds the engine is invoked. -/
theorem c10_only_empty_rejected (cfg : Int) (tex : String) (w : World)
    (htex : tex ≠ "") :
    (compile_tex cfg tex w).fst ≠ Except.ok Response.badRequestNoContent ∧
    Event.workspaceCreated ∈ (compile_tex cfg tex w).snd ∧
    (w.writeError = none →
       Event.engineInvoked command ∈ (compile_tex cfg tex w).snd) := by
  rw [compile_tex_of_ne_empty cfg tex w htex]
  cases hw : w.writeError with
  | some err =>
      exact ⟨fun h => Except.noConfusion h, by simp,
        fun hn => Option.noConfusion hn⟩
  | none =>
      refine ⟨fun h => classify_ne_badRequest cfg w (Except.ok.inj h),
        by simp, fun _ => by simp⟩

/-- C10 witness: a whitespace-only body passes validation, creates a
workspace and reaches the engine. -/
theorem c10_witness :
    (compile_tex 30 " " benignWorld).fst ≠
      Except.ok Response.badRequestNoContent ∧
    Event.workspaceCreated ∈ (compile_tex 30 " " benignWorld).snd ∧
    (benignWorld.writeError = none →
       Event.engineInvoked command ∈ (compile_tex 30 " " benignWorld).snd) :=
  c10_only_empty_rejected 30 " " benignWorld (by decide)

end PdfToLatexApi
